import Mathlib

/-!
Verification of the grid-based target-distribution engine of the
PLUMED2 VES reweight-factor code (`src/ves/TargetDistribution.{h,cpp}`,
`TD_WellTempered`, `TD_Matheval`, `TD_LinearCombination`,
`VesLinearExpansion`).

Grids are embedded as index-functions over `ℕ` together with an explicit
size; a value grid and its negative-log companion grid share one domain
(they are always allocated with identical arguments in `setupGrids`), so
they are modelled as one `GridPair`.  External collaborators (quadrature
weights, linked bias/FES grids, the bias-cutoff switching function and
the inverse temperature, all supplied by the host bias) are collected in
an `Env`.  `double` arithmetic is modelled by real arithmetic; fatal
errors (`plumed_merror`) by `Except.error`; the warnings written to
`stderr` by an explicit list of `Warning` values returned by `update`.
-/

noncomputable section

namespace Ves

open Real

/-- Minimum of `f 0, …, f n` (left fold with `min`, as `Grid::getMinValue`). -/
def minFrom (f : ℕ → ℝ) : ℕ → ℝ
  | 0 => f 0
  | n + 1 => min (minFrom f n) (f (n + 1))

/-- Minimum of the first `n` values of `f` (`0` for an empty grid). -/
def minOver (n : ℕ) (f : ℕ → ℝ) : ℝ :=
  match n with
  | 0 => 0
  | m + 1 => minFrom f m

/-- A value grid together with its negative-log companion grid.
`value`/`deriv` are the stored values and derivatives of the value grid,
`logValue` the stored values of the log grid; both grids range over the
points `point 0, …, point (size-1)` of the common domain. -/
structure GridPair where
  size : ℕ
  point : ℕ → List ℝ
  value : ℕ → ℝ
  deriv : ℕ → ℝ
  logValue : ℕ → ℝ

/-- Model of `Grid::scaleAllValuesAndDerivatives` on the value grid. -/
def GridPair.scaleValues (p : GridPair) (c : ℝ) : GridPair :=
  { p with value := fun l => p.value l * c, deriv := fun l => p.deriv l * c }

/-- Model of `Grid::setMinToZero` on the log grid. -/
def GridPair.setLogMinToZero (p : GridPair) : GridPair :=
  { p with logValue := fun l => p.logValue l - minOver p.size p.logValue }

/-- Model of `Grid::setMinToZero` on the value grid. -/
def GridPair.setValueMinToZero (p : GridPair) : GridPair :=
  { p with value := fun l => p.value l - minOver p.size p.value }

/-- External inputs of one `update()` call: inverse temperature,
bias-cutoff switching function (value and derivative factor), linked
bias-without-cutoff and FES grids for the primary and the reweighting
domain, and the quadrature weights of the two domains. -/
structure Env where
  beta : ℝ
  swf : ℝ → ℝ × ℝ
  biasWoc : ℕ → ℝ
  biasWocRW : ℕ → ℝ
  fes : ℕ → ℝ
  fesRW : ℕ → ℝ
  w : ℕ → ℝ
  wRW : ℕ → ℝ

/-- Mutable state of a `TargetDistribution` object. -/
structure TargetDist where
  force_normalization : Bool
  check_normalization : Bool
  check_nonnegative : Bool
  shift_targetdist_to_zero : Bool
  bias_cutoff_active : Bool
  static_grid_calculated : Bool
  reweight_grid_active : Bool
  modifiers : List (ℝ → List ℝ → ℝ)
  main : GridPair
  rw : GridPair

/-- Model of `TargetDistribution::integrateGrid`: quadrature-weighted sum of the
value grid. -/
def integrateGrid (w : ℕ → ℝ) (p : GridPair) : ℝ :=
  ∑ l in Finset.range p.size, w l * p.value l

/-- Warnings printed (non-fatally) to `stderr` during `update()`. -/
inductive Warning where
  | notNormalized (normalization : ℝ)
  | negativeValues (min_value : ℝ)
deriving DecidableEq

/-- Model of `TargetDistribution::normalizeTargetDistGrid` (header, lines 252-263):
scale the value grid (values and derivatives) by the reciprocal of its
integral, fatal if the integral is negative; mirrored on the reweighting
grid with its own integral when that grid is active. -/
def normalizeTargetDistGrid (env : Env) (s : TargetDist) : Except String TargetDist :=
  let n1 := integrateGrid env.w s.main
  let s1 := { s with main := s.main.scaleValues (1 / n1) }
  if n1 < 0 then
    .error "something went wrong trying to normalize the target distribution"
  else if s.reweight_grid_active then
    let n2 := integrateGrid env.wRW s.rw
    let s2 := { s1 with rw := s.rw.scaleValues (1 / n2) }
    if n2 < 0 then
      .error "something went wrong trying to normalize the target distribution"
    else .ok s2
  else .ok s1

/-- Model of `TargetDistribution::updateLogTargetDistGrid`: recompute the log grid
as the negative log of the value grid and shift its minimum to zero;
mirrored on the reweighting pair when active. -/
def updateLogTargetDistGrid (s : TargetDist) : TargetDist :=
  let main1 := ({ s.main with logValue := fun l => -Real.log (s.main.value l) }).setLogMinToZero
  let s1 := { s with main := main1 }
  if s.reweight_grid_active then
    { s1 with rw := ({ s.rw with logValue := fun l => -Real.log (s.rw.value l) }).setLogMinToZero }
  else s1

/-- Model of `TargetDistribution::setMinimumOfTargetDistGridToZero`: shift the value
grid minimum to zero, renormalize, recompute the log grid. -/
def setMinimumOfTargetDistGridToZero (env : Env) (s : TargetDist) : Except String TargetDist :=
  let s1 := { s with
    main := s.main.setValueMinToZero,
    rw := if s.reweight_grid_active then s.rw.setValueMinToZero else s.rw }
  match normalizeTargetDistGrid env s1 with
  | .error e => .error e
  | .ok s2 => .ok (updateLogTargetDistGrid s2)

/-- Model of `TargetDistribution::applyTargetDistModiferToGrid`: transform every
value by the modifier, accumulate the quadrature-weighted sum of the
transformed values, write the transformed value into the value grid and
its negative log into the log grid, then rescale the value grid by the
reciprocal of the sum and shift the log grid minimum to zero; repeated
independently for the reweighting pair when active. -/
def applyTargetDistModiferToGrid (env : Env) (m : ℝ → List ℝ → ℝ) (s : TargetDist) : TargetDist :=
  let g := s.main
  let u : ℕ → ℝ := fun l => m (g.value l) (g.point l)
  let norm := ∑ l in Finset.range g.size, env.w l * u l
  let mainA : GridPair := { g with value := u, logValue := fun l => -Real.log (u l) }
  let s1 := { s with main := (mainA.scaleValues (1 / norm)).setLogMinToZero }
  if s.reweight_grid_active then
    let grw := s.rw
    let urw : ℕ → ℝ := fun l => m (grw.value l) (grw.point l)
    let nrw := ∑ l in Finset.range grw.size, env.wRW l * urw l
    let rwA : GridPair := { grw with value := urw, logValue := fun l => -Real.log (urw l) }
    { s1 with rw := (rwA.scaleValues (1 / nrw)).setLogMinToZero }
  else s1

/-- Fold of `applyTargetDistModiferToGrid` over the registered modifiers,
in registration order (the loop at the top of `update()`). -/
def applyModifiers (env : Env) (s : TargetDist) : TargetDist :=
  s.modifiers.foldl (fun t m => applyTargetDistModiferToGrid env m t) s

/-- Model of `TargetDistribution::updateBiasCutoffForTargetDistGrid`: at each index
read the value `p` and the linked bias-without-cutoff value `b`, obtain
the switching factor and its derivative factor, accumulate the
quadrature-weighted integral of `p * swf`, store `p * swf * deriv_factor`,
and after the pass rescale the value grid by the reciprocal of the
accumulated integral; the log grid is left untouched.  Repeated
independently for the reweighting pair with its own linked bias grid and
its own accumulator when that pair is active. -/
def updateBiasCutoffForTargetDistGrid (env : Env) (s : TargetDist) : TargetDist :=
  let g := s.main
  let norm := ∑ l in Finset.range g.size,
    env.w l * (g.value l * (env.swf (env.biasWoc l)).1)
  let mainA : GridPair :=
    { g with value := fun l => g.value l * (env.swf (env.biasWoc l)).1 * (env.swf (env.biasWoc l)).2 }
  let s1 := { s with main := mainA.scaleValues (1 / norm) }
  if s.reweight_grid_active then
    let grw := s.rw
    let nrw := ∑ l in Finset.range grw.size,
      env.wRW l * (grw.value l * (env.swf (env.biasWocRW l)).1)
    let rwA : GridPair :=
      { grw with value := fun l => grw.value l * (env.swf (env.biasWocRW l)).1 * (env.swf (env.biasWocRW l)).2 }
    { s1 with rw := rwA.scaleValues (1 / nrw) }
  else s1

/-- Model of `TargetDistribution::calculateStaticDistributionGrid`: cached behind
the `static_grid_calculated && !bias_cutoff_active_` early return;
otherwise evaluate `getValue` at every point of the value grid, fill the
log grid with the negative logs and shift its minimum to zero, mirroring
on the reweighting pair when active, then mark the static grid as
calculated. -/
def calculateStaticDistributionGrid (f : List ℝ → ℝ) (s : TargetDist) : TargetDist :=
  if s.static_grid_calculated && !s.bias_cutoff_active then s
  else
    let main1 := ({ s.main with
      value := fun l => f (s.main.point l),
      logValue := fun l => -Real.log (f (s.main.point l)) }).setLogMinToZero
    let s1 := { s with main := main1 }
    let s2 :=
      if s.reweight_grid_active then
        { s1 with rw := ({ s.rw with
            value := fun l => f (s.rw.point l),
            logValue := fun l => -Real.log (f (s.rw.point l)) }).setLogMinToZero }
      else s1
    { s2 with static_grid_calculated := true }

/-- The concrete distribution variants whose `updateGrid()` is embedded:
the base static case, `TD_WellTempered` and `TD_Matheval` (the matheval
evaluator is abstracted as a function of the point and the local
free-energy value). -/
inductive Variant where
  | static (f : List ℝ → ℝ)
  | wellTempered (bias_factor : ℝ)
  | matheval (f : List ℝ → ℝ → ℝ) (use_fes : Bool)

/-- Model of `TD_WellTempered::updateGrid`: per point `v = (β/γ)·F`, store `v` in
the log grid and `exp (-v)` in the value grid while accumulating the
quadrature-weighted sum, then rescale the value grid by the reciprocal of
the sum and shift the log grid minimum to zero; mirrored on the
reweighting pair with its own accumulator when active. -/
def wellTemperedUpdateGrid (env : Env) (bias_factor : ℝ) (s : TargetDist) : TargetDist :=
  let beta_prime := env.beta / bias_factor
  let g := s.main
  let mainA : GridPair := { g with
    logValue := fun l => beta_prime * env.fes l,
    value := fun l => Real.exp (-(beta_prime * env.fes l)) }
  let norm := ∑ l in Finset.range g.size, env.w l * Real.exp (-(beta_prime * env.fes l))
  let s1 := { s with main := (mainA.scaleValues (1 / norm)).setLogMinToZero }
  if s.reweight_grid_active then
    let grw := s.rw
    let rwA : GridPair := { grw with
      logValue := fun l => beta_prime * env.fesRW l,
      value := fun l => Real.exp (-(beta_prime * env.fesRW l)) }
    let nrw := ∑ l in Finset.range grw.size, env.wRW l * Real.exp (-(beta_prime * env.fesRW l))
    { s1 with rw := (rwA.scaleValues (1 / nrw)).setLogMinToZero }
  else s1

open Classical in
/-- Reweighting-grid pass of `TD_Matheval::updateGrid`, run after the
primary pass when the reweighting pair is active. -/
def mathevalFinish (env : Env) (f : List ℝ → ℝ → ℝ) (use_fes : Bool) (s : TargetDist) :
    Except String TargetDist :=
  if s.reweight_grid_active then
    let g := s.rw
    let u : ℕ → ℝ := fun l => f (g.point l) (if use_fes then env.fesRW l else 0)
    if s.shift_targetdist_to_zero = false ∧ ∃ l, l < g.size ∧ u l < 0 then
      .error "The reweight grid function gives negative values"
    else
      let norm := ∑ l in Finset.range g.size, env.wRW l * u l
      let rwA : GridPair := { g with value := u, logValue := fun l => -Real.log (u l) }
      if 0 < norm then
        .ok { s with rw := (rwA.scaleValues (1 / norm)).setLogMinToZero }
      else if s.shift_targetdist_to_zero = false then
        .error "The reweight grid function cannot be normalized proberly"
      else
        .ok { s with rw := rwA.setLogMinToZero }
  else .ok s

open Classical in
/-- Model of `TD_Matheval::updateGrid`: evaluate the expression at every point
(with the local free-energy value when the FES variable is used), fatal
on a negative value unless shift-to-zero is active, fill the log grid
with the negative logs, rescale by the accumulated quadrature sum when it
is positive (fatal when it is not, unless shift-to-zero is active), shift
the log grid minimum to zero, then run the reweighting pass. -/
def mathevalUpdateGrid (env : Env) (f : List ℝ → ℝ → ℝ) (use_fes : Bool) (s : TargetDist) :
    Except String TargetDist :=
  let g := s.main
  let u : ℕ → ℝ := fun l => f (g.point l) (if use_fes then env.fes l else 0)
  if s.shift_targetdist_to_zero = false ∧ ∃ l, l < g.size ∧ u l < 0 then
    .error "The target distribution function gives negative values"
  else
    let norm := ∑ l in Finset.range g.size, env.w l * u l
    let mainA : GridPair := { g with value := u, logValue := fun l => -Real.log (u l) }
    if 0 < norm then
      mathevalFinish env f use_fes { s with main := (mainA.scaleValues (1 / norm)).setLogMinToZero }
    else if s.shift_targetdist_to_zero = false then
      .error "The target distribution function cannot be normalized proberly"
    else
      mathevalFinish env f use_fes { s with main := mainA.setLogMinToZero }

/-- The virtual `updateGrid()` step of `update()`, by variant. -/
def updateGrid (env : Env) : Variant → TargetDist → Except String TargetDist
  | .static f, s => .ok (calculateStaticDistributionGrid f s)
  | .wellTempered γ, s => .ok (wellTemperedUpdateGrid env γ s)
  | .matheval f use_fes, s => mathevalUpdateGrid env f use_fes s

open Classical in
/-- The two warning checks at the end of `update()`: the normalization
check (enabled and cutoff inactive, integral outside `[0.9, 1.1]`) and
the non-negativity check (enabled, minimum value below `-0.02`). -/
def runChecks (env : Env) (s : TargetDist) : List Warning :=
  (if s.check_normalization && !s.bias_cutoff_active then
    let normalization := integrateGrid env.w s.main
    if normalization < 1 - 0.1 ∨ 1 + 0.1 < normalization then
      [Warning.notNormalized normalization]
    else []
  else []) ++
  (if s.check_nonnegative then
    let grid_min_value := minOver s.main.size s.main.value
    if grid_min_value < -0.02 then [Warning.negativeValues grid_min_value] else []
  else [])

/-- Model of `TargetDistribution::update`: `updateGrid()`, the modifier chain, the
bias-cutoff transform when the cutoff is active, the shift-to-zero and
forced-normalization steps (only when the cutoff is inactive), then the
two warning checks. -/
def update (env : Env) (v : Variant) (s : TargetDist) :
    Except String (TargetDist × List Warning) :=
  match updateGrid env v s with
  | .error e => .error e
  | .ok s1 =>
    let s2 := applyModifiers env s1
    let s3 := if s2.bias_cutoff_active then updateBiasCutoffForTargetDistGrid env s2 else s2
    match (if s3.shift_targetdist_to_zero && !s3.bias_cutoff_active then
            setMinimumOfTargetDistGridToZero env s3 else .ok s3) with
    | .error e => .error e
    | .ok s4 =>
      match (if s4.force_normalization && !s4.bias_cutoff_active then
              normalizeTargetDistGrid env s4 else .ok s4) with
      | .error e => .error e
      | .ok s5 => .ok (s5, runChecks env s5)

/-- Configuration produced by the `TargetDistribution` constructor
(`TargetDistribution.cpp`, lines 55-129): flags, the parsed bias-cutoff
value and the broadening factors of the registered well-tempered
modifiers. -/
structure Config where
  is_dynamic : Bool
  force_normalization : Bool
  check_normalization : Bool
  check_nonnegative : Bool
  shift_targetdist_to_zero : Bool
  needs_bias_withoutcutoff_grid : Bool
  needs_fes_grid : Bool
  bias_cutoff_active : Bool
  bias_cutoff_value : ℝ
  wt_modifer_factors : List ℝ

/-- Parsed keyword input of the `TargetDistribution` constructor.  The
`has_*` fields model `keywords.exists(...)` (whether the variant
registered the keyword); the value fields model what `parse`/`parseFlag`
read from the input (their defaults when the keyword is absent). -/
structure KeywordInput where
  supports_bias_cutoff : Bool
  bias_cutoff_value : ℝ
  has_welltempered : Bool
  welltempered_factor : ℝ
  has_shift_to_zero : Bool
  shift_to_zero : Bool
  has_normalize : Bool
  normalize : Bool

/-- Member-initializer defaults of the `TargetDistribution` constructor. -/
def initConfig : Config :=
  { is_dynamic := false
    force_normalization := false
    check_normalization := true
    check_nonnegative := true
    shift_targetdist_to_zero := false
    needs_bias_withoutcutoff_grid := false
    needs_fes_grid := false
    bias_cutoff_active := false
    bias_cutoff_value := 0
    wt_modifer_factors := [] }

/-- Model of `TargetDistribution::setupBiasCutoff`: fatal when the variant did not
register the `BIAS_CUTOFF` keyword; otherwise activate the cutoff, mark
the bias-without-cutoff grid as needed, make the distribution dynamic and
disable both the normalization check and forced normalization. -/
def setupBiasCutoff (supports : Bool) (c : Config) : Except String Config :=
  if supports = false then
    .error "this target distribution does not support a bias cutoff"
  else
    .ok { c with
      bias_cutoff_active := true
      needs_bias_withoutcutoff_grid := true
      is_dynamic := true
      check_normalization := false
      force_normalization := false }

open Classical in
/-- The `TargetDistribution` constructor body: parse `BIAS_CUTOFF` (fatal
when negative, cutoff setup when positive), then `WELLTEMPERED_FACTOR`
(one modifier when positive, fatal when negative or combined with the
cutoff, nothing when zero), then `SHIFT_TO_ZERO` (fatal with the cutoff,
disables the non-negativity check), then `NORMALIZE` (fatal with
shift-to-zero or the cutoff, forces normalization).  All of this happens
before `setupGrids` can run, hence before any grid is allocated. -/
def constructTargetDist (k : KeywordInput) : Except String Config :=
  let c0 := { initConfig with bias_cutoff_value := k.bias_cutoff_value }
  if k.bias_cutoff_value < 0 then
    .error "negative value in BIAS_CUTOFF does not make sense"
  else
    match (if 0 < k.bias_cutoff_value then setupBiasCutoff k.supports_bias_cutoff c0
           else .ok c0) with
    | .error e => .error e
    | .ok c1 =>
      match (if k.has_welltempered then
              (if 0 < k.welltempered_factor then
                (if c1.bias_cutoff_active then
                  .error "using WELLTEMPERED_FACTOR with bias cutoff is not allowed"
                else
                  .ok { c1 with wt_modifer_factors := c1.wt_modifer_factors ++ [k.welltempered_factor] })
              else if k.welltempered_factor < 0 then
                .error "negative value in WELLTEMPERED_FACTOR does not make sense"
              else .ok c1)
            else .ok c1 : Except String Config) with
      | .error e => .error e
      | .ok c2 =>
        match (if k.has_shift_to_zero && k.shift_to_zero then
                (if c2.bias_cutoff_active then
                  .error "using SHIFT_TO_ZERO with bias cutoff is not allowed"
                else
                  .ok { c2 with shift_targetdist_to_zero := true, check_nonnegative := false })
              else .ok c2 : Except String Config) with
        | .error e => .error e
        | .ok c3 =>
          if k.has_normalize && k.normalize then
            (if c3.shift_targetdist_to_zero then
              .error "using NORMALIZE with SHIFT_TO_ZERO is not needed"
            else if c3.bias_cutoff_active then
              .error "using NORMALIZE with bias cutoff is not allowed"
            else
              .ok { c3 with force_normalization := true, check_normalization := false })
          else .ok c3

open Classical in
/-- The `TD_WellTempered` constructor: run the base constructor, parse
the compulsory `BIASFACTOR`, fatal when it is not larger than 1, then
mark the distribution dynamic and the FES grid as needed. -/
def constructWellTempered (k : KeywordInput) (bias_factor : ℝ) : Except String Config :=
  match constructTargetDist k with
  | .error e => .error e
  | .ok c =>
    if bias_factor ≤ 1 then
      .error "the value of the bias factor should be larger than 1.0"
    else
      .ok { c with is_dynamic := true, needs_fes_grid := true }

open Classical in
/-- Child-weight handling of the `TD_LinearCombination` constructor:
fatal with zero or one child; when no `WEIGHTS` are given every child
gets weight 1; fatal when the number of weights differs from the number
of children; finally every weight is divided by the sum of the weights. -/
def linearCombinationWeights (ndist : ℕ) (weights_in : Option (List ℝ)) :
    Except String (List ℝ) :=
  if ndist = 0 then .error "no distributions are given"
  else if ndist = 1 then .error "giving only one distribution does not make sense"
  else
    let weights := weights_in.getD (List.replicate ndist 1)
    if weights.length ≠ ndist then
      .error "there has to be as many weights given in WEIGHTS as numbered DISTRIBUTION keywords"
    else
      let sum_weights := weights.foldl (fun a b => a + b) 0
      .ok (weights.map (fun w => w / sum_weights))

/-! ### Basic lemmas about the grid operations -/

@[simp]
lemma GridPair.scaleValues_size (p : GridPair) (c : ℝ) : (p.scaleValues c).size = p.size := rfl

@[simp]
lemma GridPair.scaleValues_point (p : GridPair) (c : ℝ) : (p.scaleValues c).point = p.point := rfl

@[simp]
lemma GridPair.scaleValues_logValue (p : GridPair) (c : ℝ) :
    (p.scaleValues c).logValue = p.logValue := rfl

@[simp]
lemma GridPair.scaleValues_value (p : GridPair) (c : ℝ) (l : ℕ) :
    (p.scaleValues c).value l = p.value l * c := rfl

@[simp]
lemma GridPair.scaleValues_deriv (p : GridPair) (c : ℝ) (l : ℕ) :
    (p.scaleValues c).deriv l = p.deriv l * c := rfl

@[simp]
lemma GridPair.setLogMinToZero_size (p : GridPair) : p.setLogMinToZero.size = p.size := rfl

@[simp]
lemma GridPair.setLogMinToZero_point (p : GridPair) : p.setLogMinToZero.point = p.point := rfl

@[simp]
lemma GridPair.setLogMinToZero_value (p : GridPair) : p.setLogMinToZero.value = p.value := rfl

@[simp]
lemma GridPair.setLogMinToZero_deriv (p : GridPair) : p.setLogMinToZero.deriv = p.deriv := rfl

@[simp]
lemma GridPair.setLogMinToZero_logValue (p : GridPair) (l : ℕ) :
    p.setLogMinToZero.logValue l = p.logValue l - minOver p.size p.logValue := rfl

@[simp]
lemma GridPair.setValueMinToZero_size (p : GridPair) : p.setValueMinToZero.size = p.size := rfl

@[simp]
lemma GridPair.setValueMinToZero_point (p : GridPair) : p.setValueMinToZero.point = p.point := rfl

@[simp]
lemma GridPair.setValueMinToZero_logValue (p : GridPair) :
    p.setValueMinToZero.logValue = p.logValue := rfl

lemma minFrom_congr {f g : ℕ → ℝ} (n : ℕ) (h : ∀ l ≤ n, f l = g l) :
    minFrom f n = minFrom g n := by
  induction n with
  | zero => simpa [minFrom] using h 0 (le_refl 0)
  | succ n ih =>
    simp only [minFrom]
    rw [ih (fun l hl => h l (le_trans hl (Nat.le_succ n))), h (n + 1) (le_refl _)]

lemma minFrom_add (f : ℕ → ℝ) (c : ℝ) (n : ℕ) :
    minFrom (fun l => f l + c) n = minFrom f n + c := by
  induction n with
  | zero => simp [minFrom]
  | succ n ih => simp only [minFrom, ih, min_add_add_right]

lemma minOver_congr {f g : ℕ → ℝ} (n : ℕ) (h : ∀ l < n, f l = g l) :
    minOver n f = minOver n g := by
  cases n with
  | zero => rfl
  | succ m => exact minFrom_congr m (fun l hl => h l (Nat.lt_succ_of_le hl))

lemma minOver_add (n : ℕ) (hn : 0 < n) (f : ℕ → ℝ) (c : ℝ) :
    minOver n (fun l => f l + c) = minOver n f + c := by
  cases n with
  | zero => exact absurd hn (lt_irrefl 0)
  | succ m => exact minFrom_add f c m

/-! ### The log/value consistency invariant -/

/-- The uniform offset of the spec invariant: the minimum over the grid
of the negative logs of the stored values. -/
def negLogMin (p : GridPair) : ℝ := minOver p.size (fun l => -Real.log (p.value l))

/-- Spec invariant for one grid pair: every log-grid entry is the
negative log of the value-grid entry minus the uniform offset
`negLogMin`, so that the minimum of the log grid is zero. -/
def logConsistent (p : GridPair) : Prop :=
  ∀ l < p.size, p.logValue l = -Real.log (p.value l) - negLogMin p

/-- All stored values of the first `size` indices are positive. -/
def valuesPos (p : GridPair) : Prop := ∀ l < p.size, 0 < p.value l

lemma negLogMin_setLogMinToZero (p : GridPair) : negLogMin p.setLogMinToZero = negLogMin p := rfl

lemma logConsistent_setLogMinToZero (p : GridPair)
    (h : ∀ l < p.size, p.logValue l = -Real.log (p.value l)) :
    logConsistent p.setLogMinToZero := by
  intro l hl
  simp only [GridPair.setLogMinToZero_size] at hl
  have hmin : minOver p.size p.logValue = negLogMin p := minOver_congr _ (fun j hj => h j hj)
  show p.logValue l - minOver p.size p.logValue = -Real.log (p.value l) - negLogMin p
  rw [h l hl, hmin]

lemma negLogMin_scaleValues (p : GridPair) (c : ℝ) (hc : c ≠ 0)
    (hv : ∀ l < p.size, p.value l ≠ 0) (hn : 0 < p.size) :
    negLogMin (p.scaleValues c) = negLogMin p - Real.log c := by
  unfold negLogMin
  simp only [GridPair.scaleValues_size]
  have hcongr : ∀ j < p.size,
      -Real.log ((p.scaleValues c).value j) = (fun j => -Real.log (p.value j) + -Real.log c) j := by
    intro j hj
    simp only [GridPair.scaleValues_value]
    rw [Real.log_mul (hv j hj) hc]
    ring
  rw [minOver_congr _ hcongr, minOver_add _ hn]
  ring

lemma logConsistent_scaleValues (p : GridPair) (c : ℝ) (hc : c ≠ 0)
    (hv : ∀ l < p.size, p.value l ≠ 0) (hn : 0 < p.size) (h : logConsistent p) :
    logConsistent (p.scaleValues c) := by
  intro l hl
  simp only [GridPair.scaleValues_size] at hl
  simp only [GridPair.scaleValues_logValue, GridPair.scaleValues_value,
    negLogMin_scaleValues p c hc hv hn]
  rw [h l hl, Real.log_mul (hv l hl) hc]
  ring

lemma scale_setLogMin_comm (p : GridPair) (c : ℝ) :
    (p.scaleValues c).setLogMinToZero = p.setLogMinToZero.scaleValues c := rfl

lemma logConsistent_scaled_setLogMin (p : GridPair) (c : ℝ) (hc : c ≠ 0)
    (hlog : ∀ l < p.size, p.logValue l = -Real.log (p.value l))
    (hv : ∀ l < p.size, p.value l ≠ 0) (hn : 0 < p.size) :
    logConsistent ((p.scaleValues c).setLogMinToZero) := by
  rw [scale_setLogMin_comm]
  exact logConsistent_scaleValues p.setLogMinToZero c hc hv hn
    (logConsistent_setLogMinToZero p hlog)

lemma sum_weighted_pos (n : ℕ) (hn : 0 < n) (w u : ℕ → ℝ)
    (hw : ∀ l, 0 < w l) (hu : ∀ l < n, 0 < u l) :
    0 < ∑ l in Finset.range n, w l * u l :=
  Finset.sum_pos (fun i hi => mul_pos (hw i) (hu i (Finset.mem_range.1 hi)))
    ⟨0, Finset.mem_range.2 hn⟩

/-! ### Preservation of the configuration through the update steps -/

/-- The configuration (flags, modifier list, primary domain) that no
step of `update()` may change: only grid contents and the
static-grid cache flag evolve. -/
def sameSetup (s t : TargetDist) : Prop :=
  t.force_normalization = s.force_normalization ∧
  t.check_normalization = s.check_normalization ∧
  t.check_nonnegative = s.check_nonnegative ∧
  t.shift_targetdist_to_zero = s.shift_targetdist_to_zero ∧
  t.bias_cutoff_active = s.bias_cutoff_active ∧
  t.reweight_grid_active = s.reweight_grid_active ∧
  t.modifiers = s.modifiers ∧
  t.main.size = s.main.size ∧
  t.main.point = s.main.point

lemma sameSetup_refl (s : TargetDist) : sameSetup s s := by
  unfold sameSetup; exact ⟨rfl, rfl, rfl, rfl, rfl, rfl, rfl, rfl, rfl⟩

lemma sameSetup_trans {s t u : TargetDist} (h1 : sameSetup s t) (h2 : sameSetup t u) :
    sameSetup s u := by
  obtain ⟨a1, a2, a3, a4, a5, a6, a7, a8, a9⟩ := h1
  obtain ⟨b1, b2, b3, b4, b5, b6, b7, b8, b9⟩ := h2
  exact ⟨b1.trans a1, b2.trans a2, b3.trans a3, b4.trans a4, b5.trans a5,
    b6.trans a6, b7.trans a7, b8.trans a8, b9.trans a9⟩

lemma sameSetup_applyModifer (env : Env) (m : ℝ → List ℝ → ℝ) (s : TargetDist) :
    sameSetup s (applyTargetDistModiferToGrid env m s) := by
  unfold applyTargetDistModiferToGrid sameSetup
  split <;> simp [GridPair.scaleValues, GridPair.setLogMinToZero]

lemma sameSetup_applyModifiers (env : Env) (s : TargetDist) :
    sameSetup s (applyModifiers env s) := by
  unfold applyModifiers
  generalize s.modifiers = ms
  induction ms generalizing s with
  | nil => exact sameSetup_refl s
  | cons m ms ih =>
    exact sameSetup_trans (sameSetup_applyModifer env m s) (ih _)

lemma sameSetup_updateBiasCutoff (env : Env) (s : TargetDist) :
    sameSetup s (updateBiasCutoffForTargetDistGrid env s) := by
  unfold updateBiasCutoffForTargetDistGrid sameSetup
  split <;> simp [GridPair.scaleValues]

lemma sameSetup_normalize (env : Env) (s t : TargetDist)
    (h : normalizeTargetDistGrid env s = .ok t) : sameSetup s t := by
  simp only [normalizeTargetDistGrid] at h
  split at h
  · exact Except.noConfusion h
  · split at h
    · split at h
      · exact Except.noConfusion h
      · cases h
        unfold sameSetup
        simp [GridPair.scaleValues]
    · cases h
      unfold sameSetup
      simp [GridPair.scaleValues]

lemma sameSetup_updateLog (s : TargetDist) : sameSetup s (updateLogTargetDistGrid s) := by
  unfold updateLogTargetDistGrid sameSetup
  split <;> simp [GridPair.setLogMinToZero]

lemma sameSetup_setMinimumToZero (env : Env) (s t : TargetDist)
    (h : setMinimumOfTargetDistGridToZero env s = .ok t) : sameSetup s t := by
  simp only [setMinimumOfTargetDistGridToZero] at h
  split at h
  · exact Except.noConfusion h
  · rename_i s2 heq
    cases h
    refine sameSetup_trans (t := s2) ?_ (sameSetup_updateLog s2)
    refine sameSetup_trans (t := { s with
      main := s.main.setValueMinToZero,
      rw := if s.reweight_grid_active then s.rw.setValueMinToZero else s.rw }) ?_
      (sameSetup_normalize env _ _ heq)
    unfold sameSetup
    simp [GridPair.setValueMinToZero]

lemma sameSetup_calculateStatic (f : List ℝ → ℝ) (s : TargetDist) :
    sameSetup s (calculateStaticDistributionGrid f s) := by
  unfold calculateStaticDistributionGrid sameSetup
  split
  · simp
  · split <;> simp [GridPair.setLogMinToZero]

lemma sameSetup_wellTempered (env : Env) (γ : ℝ) (s : TargetDist) :
    sameSetup s (wellTemperedUpdateGrid env γ s) := by
  unfold wellTemperedUpdateGrid sameSetup
  split <;> simp [GridPair.scaleValues, GridPair.setLogMinToZero]

lemma sameSetup_mathevalFinish (env : Env) (f : List ℝ → ℝ → ℝ) (use_fes : Bool)
    (s t : TargetDist) (h : mathevalFinish env f use_fes s = .ok t) : sameSetup s t := by
  simp only [mathevalFinish] at h
  repeat' split at h
  all_goals
    first
      | exact Except.noConfusion h
      | (cases h
         exact sameSetup_refl s)

lemma sameSetup_matheval (env : Env) (f : List ℝ → ℝ → ℝ) (use_fes : Bool)
    (s t : TargetDist) (h : mathevalUpdateGrid env f use_fes s = .ok t) : sameSetup s t := by
  simp only [mathevalUpdateGrid] at h
  repeat' split at h
  all_goals
    first
      | exact Except.noConfusion h
      | (refine sameSetup_trans ?_ (sameSetup_mathevalFinish env f use_fes _ _ h)
         unfold sameSetup
         simp [GridPair.scaleValues, GridPair.setLogMinToZero])

lemma sameSetup_updateGrid (env : Env) (v : Variant) (s t : TargetDist)
    (h : updateGrid env v s = .ok t) : sameSetup s t := by
  cases v with
  | static f =>
    cases h
    exact sameSetup_calculateStatic f s
  | wellTempered γ =>
    cases h
    exact sameSetup_wellTempered env γ s
  | matheval f use_fes => exact sameSetup_matheval env f use_fes s t h

/-! ### Concrete fixtures used by the witness theorems -/

/-- A one-point grid pair with value 1 everywhere. -/
def onePair : GridPair :=
  { size := 1, point := fun _ => [], value := fun _ => 1, deriv := fun _ => 0,
    logValue := fun _ => 0 }

/-- An environment with unit quadrature weights, zero linked grids and a
trivial switching function. -/
def envW : Env :=
  { beta := 1, swf := fun _ => (1, 1), biasWoc := fun _ => 0, biasWocRW := fun _ => 0,
    fes := fun _ => 0, fesRW := fun _ => 0, w := fun _ => 1, wRW := fun _ => 1 }

/-- A plain state: no flags set, no modifiers, one-point grids. -/
def plainState : TargetDist :=
  { force_normalization := false, check_normalization := false, check_nonnegative := false,
    shift_targetdist_to_zero := false, bias_cutoff_active := false,
    static_grid_calculated := false, reweight_grid_active := false,
    modifiers := [], main := onePair, rw := onePair }

/-- Variant of `plainState` with an active bias cutoff. -/
def cutoffState : TargetDist := { plainState with bias_cutoff_active := true }

/-! ### C1 -/

/-- C1: `update()` performs its steps in the fixed order `updateGrid()`,
then the registered modifiers in order, then (when the bias cutoff is
active) the cutoff transform — in which case neither the shift-to-zero
step nor the forced-normalization step runs — and otherwise (cutoff
inactive) no cutoff transform, but the shift-to-zero step, the
forced-normalization step, the normalization check and the
non-negativity check, in that order. -/
theorem update_step_order (env : Env) (v : Variant) (s : TargetDist) :
    (s.bias_cutoff_active = true →
      update env v s =
        match updateGrid env v s with
        | .error e => .error e
        | .ok s1 =>
          let s3 := updateBiasCutoffForTargetDistGrid env (applyModifiers env s1)
          .ok (s3, runChecks env s3)) ∧
    (s.bias_cutoff_active = false →
      update env v s =
        match updateGrid env v s with
        | .error e => .error e
        | .ok s1 =>
          let s2 := applyModifiers env s1
          match (if s2.shift_targetdist_to_zero then setMinimumOfTargetDistGridToZero env s2
                 else .ok s2) with
          | .error e => .error e
          | .ok s4 =>
            match (if s4.force_normalization then normalizeTargetDistGrid env s4
                   else .ok s4) with
            | .error e => .error e
            | .ok s5 => .ok (s5, runChecks env s5)) := by
  constructor
  · intro hcut
    unfold update
    cases hug : updateGrid env v s with
    | error e => rfl
    | ok s1 =>
      have hc1 : s1.bias_cutoff_active = true :=
        ((sameSetup_updateGrid env v s s1 hug).2.2.2.2.1).trans hcut
      have hc2 : (applyModifiers env s1).bias_cutoff_active = true :=
        ((sameSetup_applyModifiers env s1).2.2.2.2.1).trans hc1
      have hc3 : (updateBiasCutoffForTargetDistGrid env (applyModifiers env s1)).bias_cutoff_active = true :=
        ((sameSetup_updateBiasCutoff env (applyModifiers env s1)).2.2.2.2.1).trans hc2
      simp only [hc2, hc3, if_true, Bool.not_true, Bool.and_false, Bool.false_eq_true, if_false]
  · intro hcut
    unfold update
    cases hug : updateGrid env v s with
    | error e => rfl
    | ok s1 =>
      have hc1 : s1.bias_cutoff_active = false :=
        ((sameSetup_updateGrid env v s s1 hug).2.2.2.2.1).trans hcut
      have hc2 : (applyModifiers env s1).bias_cutoff_active = false :=
        ((sameSetup_applyModifiers env s1).2.2.2.2.1).trans hc1
      simp only [hc2, Bool.not_false, Bool.and_true, Bool.false_eq_true, if_false]
      cases hs4 : (if (applyModifiers env s1).shift_targetdist_to_zero = true then
          setMinimumOfTargetDistGridToZero env (applyModifiers env s1)
        else .ok (applyModifiers env s1)) with
      | error e => rfl
      | ok s4 =>
        have hc4 : s4.bias_cutoff_active = false := by
          by_cases hsh : (applyModifiers env s1).shift_targetdist_to_zero = true
          · rw [if_pos hsh] at hs4
            exact ((sameSetup_setMinimumToZero env _ _ hs4).2.2.2.2.1).trans hc2
          · rw [if_neg hsh] at hs4
            cases hs4
            exact hc2
        simp only [hc4, Bool.not_false, Bool.and_true]

/-- Concrete instance of `update_step_order` at a state with the bias
cutoff active. -/
theorem update_step_order_witness :
    cutoffState.bias_cutoff_active = true ∧
    update envW (Variant.static fun _ => 1) cutoffState =
      match updateGrid envW (Variant.static fun _ => 1) cutoffState with
      | .error e => .error e
      | .ok s1 =>
        let s3 := updateBiasCutoffForTargetDistGrid envW (applyModifiers envW s1)
        .ok (s3, runChecks envW s3) :=
  ⟨rfl, (update_step_order envW (Variant.static fun _ => 1) cutoffState).1 rfl⟩

/-! ### C3 -/

/-- A state with the reweighting grid pair active. -/
def rwActiveState : TargetDist := { plainState with reweight_grid_active := true }

/-- C3: the bias-cutoff transform reads the distribution value `p` and the
linked bias-without-cutoff value `b` at the same index, computes the
switching factor `S(b)` and the derivative factor, accumulates the
quadrature-weighted integral of `p·S(b)`, stores `p·S(b)·S'(b)` and after
the pass divides every stored value by the accumulated integral; the same
is done independently for the reweighting grid pair — with its own
accumulator and its own linked bias grid — exactly when that pair is
active. -/
theorem updateBiasCutoff_transform (env : Env) (s : TargetDist) :
    ((updateBiasCutoffForTargetDistGrid env s).main.value = fun l =>
      s.main.value l * (env.swf (env.biasWoc l)).1 * (env.swf (env.biasWoc l)).2 /
        (∑ j in Finset.range s.main.size,
          env.w j * (s.main.value j * (env.swf (env.biasWoc j)).1))) ∧
    (s.reweight_grid_active = true →
      (updateBiasCutoffForTargetDistGrid env s).rw.value = fun l =>
        s.rw.value l * (env.swf (env.biasWocRW l)).1 * (env.swf (env.biasWocRW l)).2 /
          (∑ j in Finset.range s.rw.size,
            env.wRW j * (s.rw.value j * (env.swf (env.biasWocRW j)).1))) ∧
    (s.reweight_grid_active = false →
      (updateBiasCutoffForTargetDistGrid env s).rw = s.rw) := by
  refine ⟨?_, ?_, ?_⟩
  · by_cases hr : s.reweight_grid_active = true
    · simp only [updateBiasCutoffForTargetDistGrid, hr, if_true]
      funext l
      simp only [GridPair.scaleValues_value, mul_one_div]
    · simp only [updateBiasCutoffForTargetDistGrid, if_neg hr]
      funext l
      simp only [GridPair.scaleValues_value, mul_one_div]
  · intro hr
    simp only [updateBiasCutoffForTargetDistGrid, hr, if_true]
    funext l
    simp only [GridPair.scaleValues_value, mul_one_div]
  · intro hr
    simp only [updateBiasCutoffForTargetDistGrid, hr, Bool.false_eq_true, if_false]

/-- Concrete instance of `updateBiasCutoff_transform` with the
reweighting pair active. -/
theorem updateBiasCutoff_transform_witness :
    rwActiveState.reweight_grid_active = true ∧
    (updateBiasCutoffForTargetDistGrid envW rwActiveState).rw.value = fun l =>
      rwActiveState.rw.value l * (envW.swf (envW.biasWocRW l)).1 * (envW.swf (envW.biasWocRW l)).2 /
        (∑ j in Finset.range rwActiveState.rw.size,
          envW.wRW j * (rwActiveState.rw.value j * (envW.swf (envW.biasWocRW j)).1)) :=
  ⟨rfl, (updateBiasCutoff_transform envW rwActiveState).2.1 rfl⟩

/-! ### C4 -/

/-- Benign keyword input: no optional keyword present. -/
def defaultKeywords : KeywordInput :=
  { supports_bias_cutoff := true, bias_cutoff_value := 0, has_welltempered := false,
    welltempered_factor := 0, has_shift_to_zero := false, shift_to_zero := false,
    has_normalize := false, normalize := false }

/-- C4: `TD_WellTempered::updateGrid` stores `v = (β/γ)·F(point)` in the
log grid and `exp(-v)` in the value grid, divides the value grid by the
quadrature-weighted sum of the `exp(-v)` and shifts the log grid minimum
to zero; and constructing `TD_WellTempered` with a bias factor `γ ≤ 1` is
a fatal error. -/
theorem wellTempered_updateGrid_spec (env : Env) (s : TargetDist) (γ : ℝ) (k : KeywordInput) :
    (∀ l < s.main.size,
      (wellTemperedUpdateGrid env γ s).main.value l =
        Real.exp (-(env.beta / γ * env.fes l)) /
          (∑ j in Finset.range s.main.size, env.w j * Real.exp (-(env.beta / γ * env.fes j))) ∧
      (wellTemperedUpdateGrid env γ s).main.logValue l =
        env.beta / γ * env.fes l -
          minOver s.main.size (fun j => env.beta / γ * env.fes j)) ∧
    (γ ≤ 1 → ∀ c, constructWellTempered k γ ≠ .ok c) := by
  constructor
  · intro l hl
    by_cases hr : s.reweight_grid_active = true <;>
      simp only [wellTemperedUpdateGrid, hr, if_true, Bool.false_eq_true, if_false] <;>
      exact ⟨by simp [div_eq_mul_inv], by simp⟩
  · intro hγ c hEq
    unfold constructWellTempered at hEq
    cases hk : constructTargetDist k with
    | error e => rw [hk] at hEq; exact Except.noConfusion hEq
    | ok c0 =>
      rw [hk] at hEq
      simp [hγ] at hEq

/-- Concrete instance of `wellTempered_updateGrid_spec`: bias factor 1 is
rejected. -/
theorem wellTempered_updateGrid_spec_witness :
    (1:ℝ) ≤ 1 ∧ ∀ c, constructWellTempered defaultKeywords 1 ≠ .ok c :=
  ⟨le_refl 1,
    (wellTempered_updateGrid_spec envW plainState 1 defaultKeywords).2 (le_refl 1)⟩

/-! ### C6 -/

/-- C6: every incompatible keyword combination — bias cutoff with a
well-tempered factor, bias cutoff with shift-to-zero, normalize with
shift-to-zero, normalize with bias cutoff — and a negative bias-cutoff
value make the `TargetDistribution` constructor fail with a fatal error;
`setupGrids`, the only place where grids are allocated, can only run on a
successfully constructed object. -/
theorem construct_incompatibilities (k : KeywordInput) :
    (k.bias_cutoff_value < 0 → ∀ c, constructTargetDist k ≠ .ok c) ∧
    (0 < k.bias_cutoff_value → k.has_welltempered = true → 0 < k.welltempered_factor →
      ∀ c, constructTargetDist k ≠ .ok c) ∧
    (0 < k.bias_cutoff_value → k.has_shift_to_zero = true → k.shift_to_zero = true →
      ∀ c, constructTargetDist k ≠ .ok c) ∧
    (k.has_shift_to_zero = true → k.shift_to_zero = true → k.has_normalize = true →
      k.normalize = true → ∀ c, constructTargetDist k ≠ .ok c) ∧
    (0 < k.bias_cutoff_value → k.has_normalize = true → k.normalize = true →
      ∀ c, constructTargetDist k ≠ .ok c) := by
  refine ⟨?_, ?_, ?_, ?_, ?_⟩
  · intro h c hEq
    simp [constructTargetDist, h] at hEq
  · intro hpos hwt hfac c hEq
    have hnneg : ¬ k.bias_cutoff_value < 0 := by linarith
    by_cases hs : k.supports_bias_cutoff = false <;>
      simp_all [constructTargetDist, setupBiasCutoff, initConfig]
  · intro hpos hsh1 hsh2 c hEq
    have hnneg : ¬ k.bias_cutoff_value < 0 := by linarith
    by_cases hs : k.supports_bias_cutoff = false <;>
      by_cases hwt : k.has_welltempered = true <;>
      by_cases hf1 : 0 < k.welltempered_factor <;>
      by_cases hf2 : k.welltempered_factor < 0 <;>
      simp_all [constructTargetDist, setupBiasCutoff, initConfig]
  · intro hsh1 hsh2 hn1 hn2 c hEq
    by_cases hneg : k.bias_cutoff_value < 0
    · simp [constructTargetDist, hneg] at hEq
    · by_cases hpos : 0 < k.bias_cutoff_value <;>
        by_cases hs : k.supports_bias_cutoff = false <;>
        by_cases hwt : k.has_welltempered = true <;>
        by_cases hf1 : 0 < k.welltempered_factor <;>
        by_cases hf2 : k.welltempered_factor < 0 <;>
        simp_all [constructTargetDist, setupBiasCutoff, initConfig]
  · intro hpos hn1 hn2 c hEq
    have hnneg : ¬ k.bias_cutoff_value < 0 := by linarith
    by_cases hs : k.supports_bias_cutoff = false <;>
      by_cases hwt : k.has_welltempered = true <;>
      by_cases hf1 : 0 < k.welltempered_factor <;>
      by_cases hf2 : k.welltempered_factor < 0 <;>
      by_cases hshk : (k.has_shift_to_zero && k.shift_to_zero) = true <;>
      simp_all [constructTargetDist, setupBiasCutoff, initConfig]

/-- Concrete instance of `construct_incompatibilities`: shift-to-zero
combined with a positive bias-cutoff value is rejected. -/
theorem construct_incompatibilities_witness :
    (0:ℝ) < 1 ∧ ∀ c, constructTargetDist { defaultKeywords with
      bias_cutoff_value := 1, has_shift_to_zero := true, shift_to_zero := true } ≠ .ok c :=
  ⟨one_pos,
    (construct_incompatibilities _).2.2.1 one_pos rfl rfl⟩

/-! ### C10 -/

/-- C10: with the bias cutoff not requested (and no shift/normalize
flags), parsing `WELLTEMPERED_FACTOR` distinguishes three cases: a
strictly positive factor registers exactly one broadening modifier, a
strictly negative factor is a fatal error, and a factor of exactly zero —
or an absent keyword — is silently accepted and registers no modifier. -/
theorem welltempered_keyword_cases (k : KeywordInput)
    (hcv : k.bias_cutoff_value = 0)
    (hsh : k.shift_to_zero = false) (hnm : k.normalize = false) :
    (k.has_welltempered = true → 0 < k.welltempered_factor →
      constructTargetDist k = .ok { initConfig with
        bias_cutoff_value := k.bias_cutoff_value,
        wt_modifer_factors := [k.welltempered_factor] }) ∧
    (k.has_welltempered = true → k.welltempered_factor < 0 →
      ∀ c, constructTargetDist k ≠ .ok c) ∧
    (k.has_welltempered = true → k.welltempered_factor = 0 →
      constructTargetDist k = .ok { initConfig with bias_cutoff_value := k.bias_cutoff_value }) ∧
    (k.has_welltempered = false →
      constructTargetDist k = .ok { initConfig with bias_cutoff_value := k.bias_cutoff_value }) := by
  refine ⟨?_, ?_, ?_, ?_⟩
  · intro hwt hfac
    simp [constructTargetDist, initConfig, hcv, hsh, hnm, hwt, hfac]
  · intro hwt hfac c hEq
    have h1 : ¬ (0:ℝ) < k.welltempered_factor := by linarith
    simp [constructTargetDist, initConfig, hcv, hsh, hnm, hwt, hfac, h1] at hEq
  · intro hwt hfac
    simp [constructTargetDist, initConfig, hcv, hsh, hnm, hwt, hfac]
  · intro hwt
    simp [constructTargetDist, initConfig, hcv, hsh, hnm, hwt]

/-- Concrete instance of `welltempered_keyword_cases`: factor 2 registers
exactly one modifier. -/
theorem welltempered_keyword_cases_witness :
    (0:ℝ) < 2 ∧
    constructTargetDist { defaultKeywords with
        has_welltempered := true, welltempered_factor := 2 } =
      .ok { initConfig with
        bias_cutoff_value :=
          ({ defaultKeywords with
              has_welltempered := true, welltempered_factor := 2 } : KeywordInput).bias_cutoff_value,
        wt_modifer_factors :=
          [({ defaultKeywords with
              has_welltempered := true, welltempered_factor := 2 } : KeywordInput).welltempered_factor] } :=
  ⟨two_pos,
    (welltempered_keyword_cases _ rfl rfl rfl).1 rfl two_pos⟩

/-! ### C9 -/

/-- C9: for the base static-grid computation with bias cutoff inactive,
no modifiers and neither shift-to-zero nor forced normalization, the
result state of a successful `update()` is a fixed point: a second
`update()` returns the state (and warnings) unchanged, because the static
grid is cached behind the early return of
`calculateStaticDistributionGrid`. -/
theorem static_update_cached (env : Env) (f : List ℝ → ℝ) (s t : TargetDist) (ws : List Warning)
    (hmods : s.modifiers = [])
    (hcut : s.bias_cutoff_active = false)
    (hshift : s.shift_targetdist_to_zero = false)
    (hforce : s.force_normalization = false)
    (h : update env (.static f) s = .ok (t, ws)) :
    update env (.static f) t = .ok (t, ws) := by
  have hsetup := sameSetup_calculateStatic f s
  have hm1 : (calculateStaticDistributionGrid f s).modifiers = [] :=
    (hsetup.2.2.2.2.2.2.1).trans hmods
  have hc1 : (calculateStaticDistributionGrid f s).bias_cutoff_active = false :=
    (hsetup.2.2.2.2.1).trans hcut
  have hsh1 : (calculateStaticDistributionGrid f s).shift_targetdist_to_zero = false :=
    (hsetup.2.2.2.1).trans hshift
  have hf1 : (calculateStaticDistributionGrid f s).force_normalization = false :=
    (hsetup.1).trans hforce
  have happ : applyModifiers env (calculateStaticDistributionGrid f s) =
      calculateStaticDistributionGrid f s := by
    unfold applyModifiers
    rw [hm1]
    rfl
  unfold update at h
  simp only [updateGrid, happ, hc1, hsh1, hf1, Bool.false_eq_true, if_false,
    Bool.false_and, Bool.and_false] at h
  rw [Except.ok.injEq, Prod.mk.injEq] at h
  obtain ⟨ht, hws⟩ := h
  subst hws
  have hstatic : (calculateStaticDistributionGrid f s).static_grid_calculated = true := by
    unfold calculateStaticDistributionGrid
    split
    · rename_i hcond
      exact (Bool.and_eq_true_iff.mp hcond).1
    · rfl
  have hcalc : calculateStaticDistributionGrid f t = t := by
    unfold calculateStaticDistributionGrid
    rw [if_pos]
    rw [← ht, hstatic, hc1]
    rfl
  unfold update
  simp only [updateGrid, hcalc]
  rw [← ht] at hcalc ⊢
  simp only [happ, hc1, hsh1, hf1, Bool.false_eq_true, if_false,
    Bool.false_and, Bool.and_false]

/-- The state after a first `update()` on `plainState` with the constant
distribution 1. -/
def cachedT : TargetDist := calculateStaticDistributionGrid (fun _ => 1) plainState

/-- The warnings of that first `update()`. -/
def cachedW : List Warning := runChecks envW cachedT

/-- Concrete instance of `static_update_cached`: a second `update()`
after a concrete first one returns the identical state and warnings. -/
theorem static_update_cached_witness :
    plainState.modifiers = [] ∧ plainState.bias_cutoff_active = false ∧
    plainState.shift_targetdist_to_zero = false ∧ plainState.force_normalization = false ∧
    update envW (Variant.static fun _ => 1) cachedT = .ok (cachedT, cachedW) :=
  ⟨rfl, rfl, rfl, rfl,
    static_update_cached envW (fun _ => 1) plainState cachedT cachedW rfl rfl rfl rfl rfl⟩

/-! ### C5 -/

/-- A state whose value grid is identically zero on its one point. -/
def zeroValState : TargetDist :=
  { plainState with main := { onePair with value := fun _ => 0 } }

/-- Claim C5 as stated, at a given environment and state: a zero-or-
negative quadrature integral without shift-to-zero makes the
normalization fatal. -/
def claimC5At (env : Env) (s : TargetDist) : Prop :=
  integrateGrid env.w s.main ≤ 0 → s.shift_targetdist_to_zero = false →
    ∀ t, normalizeTargetDistGrid env s ≠ .ok t

/-- Counterexample to C5 as stated: on a grid whose integral is exactly
zero (and shift-to-zero unset), `normalizeTargetDistGrid` succeeds —
it only rejects a strictly negative integral. -/
theorem normalize_zero_integral_cex : ¬ claimC5At envW zeroValState := by
  have hnorm : integrateGrid envW.w zeroValState.main = 0 := by
    simp [integrateGrid, zeroValState, plainState, onePair, envW]
  intro h
  refine h (le_of_eq hnorm) rfl
    { zeroValState with
      main := zeroValState.main.scaleValues (1 / integrateGrid envW.w zeroValState.main) } ?_
  simp only [normalizeTargetDistGrid]
  rw [if_neg (by rw [hnorm]; norm_num)]
  rw [if_neg (by simp [zeroValState, plainState])]

/-- C5 (amended): `normalizeTargetDistGrid` is fatal exactly on a
strictly negative integral (a zero integral is not detected); when it
succeeds every value and stored derivative is divided by the integral;
the zero-or-negative-unless-shifted rule belongs to the expression
variant `TD_Matheval::updateGrid`, where a non-positive quadrature sum
without shift-to-zero is fatal. -/
theorem normalizeTargetDistGrid_spec (env : Env) (s : TargetDist)
    (f : List ℝ → ℝ → ℝ) (use_fes : Bool) :
    (integrateGrid env.w s.main < 0 → ∀ t, normalizeTargetDistGrid env s ≠ .ok t) ∧
    (0 ≤ integrateGrid env.w s.main → s.reweight_grid_active = false →
      normalizeTargetDistGrid env s =
        .ok { s with main := s.main.scaleValues (1 / integrateGrid env.w s.main) } ∧
      ∀ l, (s.main.scaleValues (1 / integrateGrid env.w s.main)).value l =
          s.main.value l / integrateGrid env.w s.main ∧
        (s.main.scaleValues (1 / integrateGrid env.w s.main)).deriv l =
          s.main.deriv l / integrateGrid env.w s.main) ∧
    (s.shift_targetdist_to_zero = false →
      (∀ l < s.main.size, 0 ≤ f (s.main.point l) (if use_fes then env.fes l else 0)) →
      (∑ l in Finset.range s.main.size,
        env.w l * f (s.main.point l) (if use_fes then env.fes l else 0)) ≤ 0 →
      ∀ t, mathevalUpdateGrid env f use_fes s ≠ .ok t) := by
  refine ⟨?_, ?_, ?_⟩
  · intro h t hEq
    simp only [normalizeTargetDistGrid] at hEq
    rw [if_pos h] at hEq
    exact Except.noConfusion hEq
  · intro h hr
    constructor
    · simp only [normalizeTargetDistGrid]
      rw [if_neg (not_lt.2 h)]
      rw [if_neg (by simp [hr])]
    · intro l
      exact ⟨by simp [div_eq_mul_inv], by simp [div_eq_mul_inv]⟩
  · intro hsh hnn hns t hEq
    simp only [mathevalUpdateGrid] at hEq
    rw [if_neg (by
      rintro ⟨-, l, hl, hlt⟩
      exact absurd hlt (not_lt.2 (hnn l hl)))] at hEq
    rw [if_neg (not_lt.2 hns), if_pos hsh] at hEq
    exact Except.noConfusion hEq

/-- Concrete instance of `normalizeTargetDistGrid_spec`: a unit grid is
divided by its (positive) integral. -/
theorem normalizeTargetDistGrid_spec_witness :
    (0:ℝ) ≤ integrateGrid envW.w plainState.main ∧
    plainState.reweight_grid_active = false ∧
    (normalizeTargetDistGrid envW plainState =
      .ok { plainState with
        main := plainState.main.scaleValues (1 / integrateGrid envW.w plainState.main) } ∧
    ∀ l, (plainState.main.scaleValues (1 / integrateGrid envW.w plainState.main)).value l =
        plainState.main.value l / integrateGrid envW.w plainState.main ∧
      (plainState.main.scaleValues (1 / integrateGrid envW.w plainState.main)).deriv l =
        plainState.main.deriv l / integrateGrid envW.w plainState.main) := by
  have h0 : (0:ℝ) ≤ integrateGrid envW.w plainState.main := by
    norm_num [integrateGrid, plainState, onePair, envW, Finset.sum_range_one]
  exact ⟨h0, rfl,
    (normalizeTargetDistGrid_spec envW plainState (fun _ _ => 0) false).2.1 h0 rfl⟩

/-! ### C7 -/

lemma list_sum_map_div (l : List ℝ) (c : ℝ) :
    (l.map (fun x => x / c)).sum = l.sum / c := by
  induction l with
  | nil => simp
  | cons a l ih => simp [ih, add_div]

/-- Claim C7 as stated, at a given child count and weight input: the
effective weights produced at construction sum to 1. -/
def claimC7At (ndist : ℕ) (weights_in : Option (List ℝ)) : Prop :=
  ∀ ws, linearCombinationWeights ndist weights_in = .ok ws → ws.sum = 1

/-- Counterexample to C7 as stated: with the user-supplied weights
`[1, -1]` the sum of the weights is zero, the constructor divides by it
without any check, and the effective weights do not sum to 1. -/
theorem linearCombinationWeights_cex : ¬ claimC7At 2 (some [1, -1]) := by
  intro h
  have h2 := h _ rfl
  norm_num [List.sum_cons, List.sum_nil, div_zero] at h2

/-- C7 (amended): whenever the user-supplied weights do not sum to zero
they are rescaled so that the effective weights sum to 1; with no
`WEIGHTS` given, every one of the `n ≥ 2` children gets the equal weight
`1/n`; in particular weights `[1.0, 1.0, 2.0]` yield `[0.25, 0.25, 0.50]`. -/
theorem linearCombinationWeights_spec (ndist : ℕ) (w : List ℝ) :
    (2 ≤ ndist → w.length = ndist → w.sum ≠ 0 →
      linearCombinationWeights ndist (some w) = .ok (w.map (fun x => x / w.sum)) ∧
      (w.map (fun x => x / w.sum)).sum = 1) ∧
    (2 ≤ ndist →
      linearCombinationWeights ndist none = .ok (List.replicate ndist ((1:ℝ) / ndist)) ∧
      (List.replicate ndist ((1:ℝ) / ndist)).sum = 1) ∧
    linearCombinationWeights 3 (some [1.0, 1.0, 2.0]) = .ok [0.25, 0.25, 0.50] := by
  refine ⟨?_, ?_, ?_⟩
  · intro hn hlen hsum
    have h0 : ¬ ndist = 0 := by omega
    have h1 : ¬ ndist = 1 := by omega
    have hfold : w.foldl (fun a b => a + b) 0 = w.sum := List.sum_eq_foldl.symm
    constructor
    · simp only [linearCombinationWeights, h0, h1, if_false, Option.getD_some, hlen,
        ne_eq, not_true_eq_false, hfold]
    · rw [list_sum_map_div, div_self hsum]
  · intro hn
    have h0 : ¬ ndist = 0 := by omega
    have h1 : ¬ ndist = 1 := by omega
    have hnz : (ndist:ℝ) ≠ 0 := Nat.cast_ne_zero.2 (by omega)
    have hsum : (List.replicate ndist (1:ℝ)).sum = (ndist:ℝ) := by
      simp [List.sum_replicate, nsmul_eq_mul]
    have hfold : (List.replicate ndist (1:ℝ)).foldl (fun a b => a + b) 0 = (ndist:ℝ) := by
      rw [← List.sum_eq_foldl, hsum]
    constructor
    · simp only [linearCombinationWeights, h0, h1, if_false, Option.getD_none,
        List.length_replicate, ne_eq, not_true_eq_false, hfold]
      simp [List.map_replicate]
    · rw [List.sum_replicate, nsmul_eq_mul, mul_one_div, div_self hnz]
  · have hfold : ([1.0, 1.0, 2.0] : List ℝ).foldl (fun a b => a + b) 0 = 4 := by
      norm_num
    simp only [linearCombinationWeights, hfold]
    norm_num

/-- Concrete instance of `linearCombinationWeights_spec`: two children
and no `WEIGHTS` keyword give equal weights summing to 1. -/
theorem linearCombinationWeights_spec_witness :
    2 ≤ 2 ∧
    (linearCombinationWeights 2 none = .ok (List.replicate 2 ((1:ℝ) / 2)) ∧
      (List.replicate 2 ((1:ℝ) / 2)).sum = 1) :=
  ⟨le_refl 2, (linearCombinationWeights_spec 2 []).2.1 (le_refl 2)⟩

/-! ### C8 -/

lemma runChecks_mem (env : Env) (t : TargetDist) :
    (t.check_normalization = true → t.bias_cutoff_active = false →
      (integrateGrid env.w t.main < 1 - 0.1 ∨ 1 + 0.1 < integrateGrid env.w t.main) →
      Warning.notNormalized (integrateGrid env.w t.main) ∈ runChecks env t) ∧
    (t.check_nonnegative = true → minOver t.main.size t.main.value < -0.02 →
      Warning.negativeValues (minOver t.main.size t.main.value) ∈ runChecks env t) := by
  constructor
  · intro h1 h2 h3
    simp [runChecks, h1, h2, h3]
  · intro h1 h2
    simp [runChecks, h1, h2]

/-- C8: during a successful `update()`, if normalization checking is
enabled, the cutoff is inactive and the quadrature integral of the value
grid deviates from 1 by more than 0.1 in either direction, a (non-fatal)
`notNormalized` warning is emitted; if non-negativity checking is enabled
and the grid minimum is below −0.02, a (non-fatal) `negativeValues`
warning is emitted; in both cases `update()` still returns `.ok`. -/
theorem update_warning_checks (env : Env) (v : Variant) (s t : TargetDist) (ws : List Warning)
    (h : update env v s = .ok (t, ws)) :
    (t.check_normalization = true → t.bias_cutoff_active = false →
      (integrateGrid env.w t.main < 1 - 0.1 ∨ 1 + 0.1 < integrateGrid env.w t.main) →
      Warning.notNormalized (integrateGrid env.w t.main) ∈ ws) ∧
    (t.check_nonnegative = true → minOver t.main.size t.main.value < -0.02 →
      Warning.negativeValues (minOver t.main.size t.main.value) ∈ ws) := by
  have key : ∀ X : TargetDist,
      (Except.ok (X, runChecks env X) : Except String (TargetDist × List Warning)) = .ok (t, ws) →
      (t.check_normalization = true → t.bias_cutoff_active = false →
        (integrateGrid env.w t.main < 1 - 0.1 ∨ 1 + 0.1 < integrateGrid env.w t.main) →
        Warning.notNormalized (integrateGrid env.w t.main) ∈ ws) ∧
      (t.check_nonnegative = true → minOver t.main.size t.main.value < -0.02 →
        Warning.negativeValues (minOver t.main.size t.main.value) ∈ ws) := by
    intro X hX
    rw [Except.ok.injEq, Prod.mk.injEq] at hX
    obtain ⟨hXt, hXw⟩ := hX
    subst hXt
    subst hXw
    exact runChecks_mem env X
  simp only [update] at h
  repeat' split at h
  all_goals
    first
      | exact Except.noConfusion h
      | exact key _ h

/-- A state with both warning checks enabled. -/
def checkState : TargetDist :=
  { plainState with check_normalization := true, check_nonnegative := true }

/-- The state after one `update()` on `checkState` with the constant
distribution 3 (integral 3, far from 1). -/
def checkT : TargetDist := calculateStaticDistributionGrid (fun _ => 3) checkState

/-- The warnings of that `update()`. -/
def checkW : List Warning := runChecks envW checkT

/-- Concrete instance of `update_warning_checks`: the unnormalized
constant-3 distribution triggers the normalization warning. -/
theorem update_warning_checks_witness :
    checkT.check_normalization = true ∧ checkT.bias_cutoff_active = false ∧
    (1 + 0.1 < integrateGrid envW.w checkT.main) ∧
    Warning.notNormalized (integrateGrid envW.w checkT.main) ∈ checkW := by
  have hint : integrateGrid envW.w checkT.main = 3 := by
    simp [integrateGrid, checkT, checkState, plainState, onePair, envW,
      calculateStaticDistributionGrid, Finset.sum_range_one]
  have key := update_warning_checks envW (Variant.static fun _ => 3) checkState checkT checkW rfl
  refine ⟨rfl, rfl, by rw [hint]; norm_num, key.1 rfl rfl (Or.inr (by rw [hint]; norm_num))⟩

/-! ### C2: establishment and preservation of the log/value invariant -/

/-- Invariant carried through the update pipeline: the primary pair is
log/value consistent and its values are positive. -/
def mainInv (s : TargetDist) : Prop :=
  logConsistent s.main ∧ ∀ l < s.main.size, 0 < s.main.value l

/-- Positivity of the variant-specific raw values. -/
def variantPositive : Variant → Prop
  | .static f => ∀ p, 0 < f p
  | .wellTempered _ => True
  | .matheval f _ => ∀ p x, 0 < f p x

lemma calc_mainInv (f : List ℝ → ℝ) (s : TargetDist) (hf : ∀ p, 0 < f p)
    (hpre : s.static_grid_calculated = true → s.bias_cutoff_active = false →
      mainInv s) :
    mainInv (calculateStaticDistributionGrid f s) := by
  unfold calculateStaticDistributionGrid
  split
  · rename_i hcond
    rw [Bool.and_eq_true] at hcond
    obtain ⟨h1, h2⟩ := hcond
    rw [Bool.not_eq_true'] at h2
    exact hpre h1 h2
  · by_cases hr : s.reweight_grid_active = true <;>
      simp only [hr, if_true, Bool.false_eq_true, if_false] <;>
      exact ⟨logConsistent_setLogMinToZero _ (fun l hl => rfl), fun l hl => hf _⟩

lemma wellTempered_mainInv (env : Env) (γ : ℝ) (s : TargetDist)
    (hw : ∀ l, 0 < env.w l) (hsz : 0 < s.main.size) :
    mainInv (wellTemperedUpdateGrid env γ s) := by
  have hnorm : 0 < ∑ l in Finset.range s.main.size,
      env.w l * Real.exp (-(env.beta / γ * env.fes l)) :=
    sum_weighted_pos _ hsz _ _ hw (fun l _ => Real.exp_pos _)
  have hinv : (1:ℝ) / (∑ l in Finset.range s.main.size,
      env.w l * Real.exp (-(env.beta / γ * env.fes l))) ≠ 0 :=
    one_div_ne_zero (ne_of_gt hnorm)
  unfold wellTemperedUpdateGrid
  by_cases hr : s.reweight_grid_active = true <;>
    simp only [hr, if_true, Bool.false_eq_true, if_false] <;>
    exact ⟨logConsistent_scaled_setLogMin _ _ hinv
        (fun l hl => by simp [Real.log_exp])
        (fun l hl => Real.exp_ne_zero _) hsz,
      fun l hl => mul_pos (Real.exp_pos _) (by positivity)⟩

lemma mathevalFinish_main (env : Env) (f : List ℝ → ℝ → ℝ) (use_fes : Bool)
    (s t : TargetDist) (h : mathevalFinish env f use_fes s = .ok t) : t.main = s.main := by
  simp only [mathevalFinish] at h
  repeat' split at h
  all_goals
    first
      | exact Except.noConfusion h
      | (cases h; rfl)

lemma matheval_mainInv (env : Env) (f : List ℝ → ℝ → ℝ) (use_fes : Bool)
    (s t : TargetDist) (hf : ∀ p x, 0 < f p x)
    (hw : ∀ l, 0 < env.w l) (hsz : 0 < s.main.size)
    (h : mathevalUpdateGrid env f use_fes s = .ok t) : mainInv t := by
  simp only [mathevalUpdateGrid] at h
  repeat' split at h
  all_goals try exact Except.noConfusion h
  all_goals
    first
      | (rename_i hn
         have hm := mathevalFinish_main env f use_fes _ _ h
         rw [mainInv, hm]
         exact ⟨logConsistent_scaled_setLogMin _ _ (one_div_ne_zero (ne_of_gt hn))
             (fun l hl => rfl) (fun l hl => ne_of_gt (hf _ _)) hsz,
           fun l hl => mul_pos (hf _ _) (by positivity)⟩)
      | (rename_i hn hsh
         exact absurd (sum_weighted_pos _ hsz _ _ hw (fun l _ => hf _ _)) hn)

lemma applyModifer_mainInv (env : Env) (m : ℝ → List ℝ → ℝ) (s : TargetDist)
    (hw : ∀ l, 0 < env.w l) (hm : ∀ x p, 0 < x → 0 < m x p)
    (hsz : 0 < s.main.size) (hinv : mainInv s) :
    mainInv (applyTargetDistModiferToGrid env m s) := by
  have hu : ∀ l < s.main.size, 0 < m (s.main.value l) (s.main.point l) :=
    fun l hl => hm _ _ (hinv.2 l hl)
  have hnorm : 0 < ∑ l in Finset.range s.main.size,
      env.w l * m (s.main.value l) (s.main.point l) :=
    sum_weighted_pos _ hsz _ _ hw hu
  unfold applyTargetDistModiferToGrid
  by_cases hr : s.reweight_grid_active = true <;>
    simp only [hr, if_true, Bool.false_eq_true, if_false] <;>
    exact ⟨logConsistent_scaled_setLogMin _ _ (one_div_ne_zero (ne_of_gt hnorm))
        (fun l hl => rfl) (fun l hl => ne_of_gt (hu l hl)) hsz,
      fun l hl => mul_pos (hu l hl) (by positivity)⟩

lemma foldl_modifiers_mainInv (env : Env) (ms : List (ℝ → List ℝ → ℝ)) (s : TargetDist)
    (hw : ∀ l, 0 < env.w l)
    (hms : ∀ m ∈ ms, ∀ x p, 0 < x → 0 < m x p)
    (hsz : 0 < s.main.size) (hinv : mainInv s) :
    mainInv (ms.foldl (fun t m => applyTargetDistModiferToGrid env m t) s) := by
  induction ms generalizing s with
  | nil => exact hinv
  | cons m ms ih =>
    have hstep := applyModifer_mainInv env m s hw (hms m (List.mem_cons_self m ms)) hsz hinv
    have hsz' : 0 < (applyTargetDistModiferToGrid env m s).main.size := by
      rw [(sameSetup_applyModifer env m s).2.2.2.2.2.2.2.1]
      exact hsz
    exact ih _ (fun m' hm' => hms m' (List.mem_cons_of_mem m hm')) hsz' hstep

lemma updateLog_consistent (s : TargetDist) :
    logConsistent (updateLogTargetDistGrid s).main := by
  unfold updateLogTargetDistGrid
  by_cases hr : s.reweight_grid_active = true <;>
    simp only [hr, if_true, Bool.false_eq_true, if_false] <;>
    exact logConsistent_setLogMinToZero _ (fun l hl => rfl)

lemma setMinimum_consistent (env : Env) (s t : TargetDist)
    (h : setMinimumOfTargetDistGridToZero env s = .ok t) :
    logConsistent t.main := by
  simp only [setMinimumOfTargetDistGridToZero] at h
  split at h
  · exact Except.noConfusion h
  · cases h
    exact updateLog_consistent _

lemma normalize_main (env : Env) (s t : TargetDist)
    (h : normalizeTargetDistGrid env s = .ok t) :
    t.main = s.main.scaleValues (1 / integrateGrid env.w s.main) := by
  simp only [normalizeTargetDistGrid] at h
  repeat' split at h
  all_goals
    first
      | exact Except.noConfusion h
      | (cases h; rfl)

/-- A two-point grid pair with value 1 everywhere. -/
def twoPair : GridPair :=
  { size := 2, point := fun _ => [], value := fun _ => 1, deriv := fun _ => 0,
    logValue := fun _ => 0 }

/-- Environment for the C2 counterexample: the linked bias-without-cutoff
grid is 0 at index 0 and 1 at index 1, and the switching function is 1 at
bias 0 and 1/2 beyond (with derivative factor 1), as a monotone switching
function supplied by the host may be. -/
def cexEnv : Env :=
  { envW with
    biasWoc := fun l => if l = 0 then 0 else 1,
    swf := fun b => (if b ≤ 0 then 1 else 1/2, 1) }

/-- Two-point state with an active bias cutoff. -/
def cexState : TargetDist :=
  { plainState with bias_cutoff_active := true, main := twoPair, rw := twoPair }

/-- The state produced by `update` on `cexState`. -/
def cexT : TargetDist :=
  updateBiasCutoffForTargetDistGrid cexEnv
    (calculateStaticDistributionGrid (fun _ => 1) cexState)

/-- Claim C2 as stated, at one input: after any successful `update()` the
log grid is the negative log of the value grid up to the uniform
min-shift offset. -/
def claimC2At (env : Env) (v : Variant) (s : TargetDist) : Prop :=
  ∀ t ws, update env v s = .ok (t, ws) → logConsistent t.main

/-- Counterexample to C2 as stated: with the bias cutoff active, the
cutoff transform rescales the value grid pointwise by the switching
factors but leaves the log grid untouched, so after a successful
`update()` the log grid is no longer the min-shifted negative log of the
value grid. -/
theorem logConsistent_cutoff_cex :
    ¬ claimC2At cexEnv (Variant.static fun _ => 1) cexState := by
  intro h
  have h2 := h cexT (runChecks cexEnv cexT) rfl
  have hv0 : cexT.main.value 0 = 2/3 := by
    simp only [cexT, cexState, twoPair, plainState, cexEnv, envW,
      calculateStaticDistributionGrid, updateBiasCutoffForTargetDistGrid,
      GridPair.scaleValues_value, GridPair.setLogMinToZero_value]
    norm_num [Finset.sum_range_succ]
  have hv1 : cexT.main.value 1 = 1/3 := by
    simp only [cexT, cexState, twoPair, plainState, cexEnv, envW,
      calculateStaticDistributionGrid, updateBiasCutoffForTargetDistGrid,
      GridPair.scaleValues_value, GridPair.setLogMinToZero_value]
    norm_num [Finset.sum_range_succ]
  have hL : cexT.main.logValue 0 = cexT.main.logValue 1 := rfl
  have h0 := h2 0 (by norm_num [cexT, cexState, twoPair, plainState,
    calculateStaticDistributionGrid, updateBiasCutoffForTargetDistGrid])
  have h1 := h2 1 (by norm_num [cexT, cexState, twoPair, plainState,
    calculateStaticDistributionGrid, updateBiasCutoffForTargetDistGrid])
  rw [h0, h1, hv0, hv1] at hL
  have hlt := Real.log_lt_log (by norm_num : (0:ℝ) < 1/3) (by norm_num : (1:ℝ)/3 < 2/3)
  have : Real.log (2/3) = Real.log (1/3) := by linarith
  linarith

/-- C2 (amended): for the embedded variants, with the bias cutoff
inactive (and positive quadrature weights, positive variant values,
positivity-preserving modifiers, a non-empty grid, shift-to-zero and
forced normalization not combined, and a consistent cached grid when the
static grid was already calculated), every successful `update()` leaves
`logValueGrid[l] = -ln(valueGrid[l]) - min_j(-ln(valueGrid[j]))`, so the
log grid minimum is zero.  With the cutoff active the invariant fails
(see the counterexample): the cutoff transform never refreshes the log
grid. -/
theorem update_logConsistent (env : Env) (v : Variant) (s t : TargetDist) (ws : List Warning)
    (hcut : s.bias_cutoff_active = false)
    (hsz : 0 < s.main.size)
    (hw : ∀ l, 0 < env.w l)
    (hmod : ∀ m ∈ s.modifiers, ∀ x p, 0 < x → 0 < m x p)
    (hvar : variantPositive v)
    (hsf : s.shift_targetdist_to_zero = true → s.force_normalization = false)
    (hpre : s.static_grid_calculated = true → mainInv s)
    (h : update env v s = .ok (t, ws)) :
    logConsistent t.main := by
  obtain ⟨s1, hug, hinv1⟩ : ∃ s1, updateGrid env v s = .ok s1 ∧ mainInv s1 := by
    cases v with
    | static f =>
      exact ⟨_, rfl, calc_mainInv f s hvar (fun h1 _ => hpre h1)⟩
    | wellTempered γ =>
      exact ⟨_, rfl, wellTempered_mainInv env γ s hw hsz⟩
    | matheval f use_fes =>
      cases hm : mathevalUpdateGrid env f use_fes s with
      | error e =>
        exfalso
        unfold update at h
        simp only [updateGrid, hm] at h
        exact Except.noConfusion h
      | ok t1 =>
        exact ⟨t1, hm, matheval_mainInv env f use_fes s t1 hvar hw hsz hm⟩
  have hset1 := sameSetup_updateGrid env v s s1 hug
  have hset2 := sameSetup_applyModifiers env s1
  have hsz1 : 0 < s1.main.size := hset1.2.2.2.2.2.2.2.1 ▸ hsz
  have hinv2 : mainInv (applyModifiers env s1) := by
    unfold applyModifiers
    refine foldl_modifiers_mainInv env s1.modifiers s1 hw ?_ hsz1 hinv1
    rw [hset1.2.2.2.2.2.2.1]
    exact hmod
  have hsz2 : 0 < (applyModifiers env s1).main.size := hset2.2.2.2.2.2.2.2.1 ▸ hsz1
  have hc2 : (applyModifiers env s1).bias_cutoff_active = false :=
    (hset2.2.2.2.2.1).trans ((hset1.2.2.2.2.1).trans hcut)
  have hsh2 : (applyModifiers env s1).shift_targetdist_to_zero = s.shift_targetdist_to_zero :=
    (hset2.2.2.2.1).trans (hset1.2.2.2.1)
  have hfo2 : (applyModifiers env s1).force_normalization = s.force_normalization :=
    (hset2.1).trans (hset1.1)
  unfold update at h
  simp only [hug, hc2, Bool.false_eq_true, if_false, Bool.not_false, Bool.and_true] at h
  by_cases hsh : s.shift_targetdist_to_zero = true
  · have hforce0 : s.force_normalization = false := hsf hsh
    rw [hsh2, hsh] at h
    simp only [if_true] at h
    cases hsm : setMinimumOfTargetDistGridToZero env (applyModifiers env s1) with
    | error e =>
      simp only [hsm] at h
      exact Except.noConfusion h
    | ok s4 =>
      simp only [hsm] at h
      have hf4 : s4.force_normalization = false :=
        ((sameSetup_setMinimumToZero env _ _ hsm).1).trans (hfo2.trans hforce0)
      simp only [hf4, Bool.false_and, Bool.false_eq_true, if_false] at h
      rw [Except.ok.injEq, Prod.mk.injEq] at h
      obtain ⟨ht, -⟩ := h
      subst ht
      exact setMinimum_consistent env _ _ hsm
  · have hsh' : s.shift_targetdist_to_zero = false := by
      revert hsh
      cases s.shift_targetdist_to_zero <;> simp
    rw [hsh2, hsh'] at h
    simp only [Bool.false_eq_true, if_false] at h
    simp only [hc2, Bool.not_false, Bool.and_true] at h
    by_cases hfo : s.force_normalization = true
    · rw [hfo2, hfo] at h
      simp only [if_true] at h
      cases hnm : normalizeTargetDistGrid env (applyModifiers env s1) with
      | error e =>
        simp only [hnm] at h
        exact Except.noConfusion h
      | ok s5 =>
        simp only [hnm] at h
        rw [Except.ok.injEq, Prod.mk.injEq] at h
        obtain ⟨ht, -⟩ := h
        subst ht
        rw [normalize_main env _ _ hnm]
        have hnorm : 0 < integrateGrid env.w (applyModifiers env s1).main :=
          sum_weighted_pos _ hsz2 _ _ hw hinv2.2
        exact logConsistent_scaleValues _ _ (one_div_ne_zero (ne_of_gt hnorm))
          (fun l hl => ne_of_gt (hinv2.2 l hl)) hsz2 hinv2.1
    · have hfo' : s.force_normalization = false := by
        revert hfo
        cases s.force_normalization <;> simp
      rw [hfo2, hfo'] at h
      simp only [Bool.false_eq_true, if_false] at h
      rw [Except.ok.injEq, Prod.mk.injEq] at h
      obtain ⟨ht, -⟩ := h
      subst ht
      exact hinv2.1

/-- Concrete instance of `update_logConsistent` on the one-point constant
distribution. -/
theorem update_logConsistent_witness :
    plainState.bias_cutoff_active = false ∧ 0 < plainState.main.size ∧
    logConsistent cachedT.main := by
  refine ⟨rfl, Nat.one_pos, ?_⟩
  exact update_logConsistent envW (Variant.static fun _ => 1) plainState cachedT
    (runChecks envW cachedT) rfl Nat.one_pos
    (fun l => one_pos)
    (by intro m hm; exact absurd hm (List.not_mem_nil m))
    (fun p => one_pos)
    (fun hfalse => by simp [plainState] at hfalse)
    (fun hfalse => by simp [plainState] at hfalse)
    rfl

end Ves
